import Mathlib

/-!
Verification development for the SAF-GDA repository.

Shallow embedding of the pure/algorithmic content of:
- `core_processor.py` (`_denormalize_coords`, `document_full_processor`,
  `run_cpu_task_async`, the result collection and the metrics reduction of
  `main_processor`);
- `seeder_ingesta.py` (`load_and_transform_data`: duplicate removal, type
  coercion, row content hash);
- `vision_lab/tesseract_test.py` (`clean_ocr_text`).

External library calls (OpenCV, pyzbar, pytesseract, the file system, the
process clock and pid) are modelled as an explicit environment record; each
call that can raise a Python exception is modelled as `Except String`.
Machine floats of the Python code are modelled as exact rationals; `int(...)`
truncation of non-negative values as `Nat` floor division.
-/

/- ===================================================================
   vision_lab/tesseract_test.py : clean_ocr_text
   =================================================================== -/

/-- Whitespace class of Python's regex `\s` and of `str.split` / `str.strip`,
restricted to the ASCII range (the characters exercised by the repository). -/
def isPySpace (c : Char) : Bool :=
  c = ' ' || c = '\t' || c = '\n' || c = '\r' || c = '\x0b' || c = '\x0c'

/-- Embeds `re.sub(r'\s+', ' ', raw_text)`: each maximal run of whitespace
characters is replaced by a single space. -/
def collapseWs : List Char → List Char
  | [] => []
  | c :: cs =>
    if isPySpace c then ' ' :: collapseWs (cs.dropWhile isPySpace)
    else c :: collapseWs cs
termination_by l => l.length
decreasing_by
  all_goals simp only [List.length_cons]
  · exact Nat.lt_succ_of_le (List.dropWhile_sublist _).length_le
  · exact Nat.lt_succ_self _

/-- Embeds Python `str.strip()`: drop whitespace from both ends. -/
def pyStrip (l : List Char) : List Char :=
  List.rdropWhile isPySpace (List.dropWhile isPySpace l)

/-- Embeds `clean_ocr_text` of `vision_lab/tesseract_test.py`:
`if not raw_text: return ""`, then `re.sub(r'\s+', ' ', raw_text).strip()`. -/
def clean_ocr_text (raw_text : String) : String :=
  if raw_text = "" then ""
  else { data := pyStrip (collapseWs raw_text.data) }

/-- Specification predicate: no two adjacent characters of the list are
both whitespace. -/
def NoAdjWs (l : List Char) : Prop :=
  List.Chain' (fun a b => ¬(isPySpace a = true ∧ isPySpace b = true)) l

/- ===================================================================
   core_processor.py : whitespace normalisation " ".join(text.split())
   =================================================================== -/

/-- Scan for Python `str.split()`: accumulates the current word in
reverse; a whitespace character (or the end) emits the accumulated word. -/
def pySplitWordsAux : List Char → List Char → List (List Char)
  | acc, [] => if acc.isEmpty then [] else [acc.reverse]
  | acc, c :: cs =>
    if isPySpace c then
      if acc.isEmpty then pySplitWordsAux [] cs
      else acc.reverse :: pySplitWordsAux [] cs
    else pySplitWordsAux (c :: acc) cs

/-- Embeds Python `str.split()`: the maximal runs of non-whitespace
characters, in order. -/
def pySplitWords (l : List Char) : List (List Char) := pySplitWordsAux [] l

/-- Embeds `" ".join(words)`. -/
def joinSpace : List (List Char) → List Char
  | [] => []
  | [w] => w
  | w :: ws => w ++ ' ' :: joinSpace ws

/-- Embeds `" ".join(text.split())` as used on OCR output in
`document_full_processor`. -/
def pySplitJoin (text : String) : String :=
  { data := joinSpace (pySplitWords text.data) }

/-- Embeds `" ".join(text.split()) if text else None`
(lines 114 and 120 of core_processor.py). -/
def ocrFieldValue (text : String) : Option String :=
  if text = "" then none else some (pySplitJoin text)

/- ===================================================================
   core_processor.py : zone denormalisation
   =================================================================== -/

/-- `ZONA_FOLIO_FISCAL` of core_processor.py. -/
def ZONA_FOLIO_FISCAL : Nat × Nat × Nat × Nat := (700, 100, 950, 150)

/-- `ZONA_TOTAL` of core_processor.py. -/
def ZONA_TOTAL : Nat × Nat × Nat × Nat := (700, 750, 950, 800)

/-- Embeds `_denormalize_coords` of core_processor.py.  The Python
`int((x1 / 1000.0) * img_w)` (truncation of a non-negative float) is
modelled as exact `Nat` floor division `x1 * img_w / 1000`; the clamping of
the right and bottom edges is the source's exact integer arithmetic. -/
def _denormalize_coords (roi : Nat × Nat × Nat × Nat) (img_w img_h : Nat) :
    Nat × Nat × Nat × Nat :=
  let x1 := roi.1
  let y1 := roi.2.1
  let x2 := roi.2.2.1
  let y2 := roi.2.2.2
  let abs_x1 := x1 * img_w / 1000
  let abs_y1 := y1 * img_h / 1000
  let abs_x2 := x2 * img_w / 1000
  let abs_y2 := y2 * img_h / 1000
  let abs_x2 := max (abs_x1 + 1) (min abs_x2 img_w)
  let abs_y2 := max (abs_y1 + 1) (min abs_y2 img_h)
  (abs_x1, abs_y1, abs_x2, abs_y2)

/-- Specification predicate for a crop rectangle: non-empty (right edge
strictly beyond left, bottom strictly beyond top) and contained in an
`img_w` by `img_h` image. -/
def crop_region_ok (d : Nat × Nat × Nat × Nat) (img_w img_h : Nat) : Prop :=
  d.1 < d.2.2.1 ∧ d.2.1 < d.2.2.2 ∧ d.2.2.1 ≤ img_w ∧ d.2.2.2 ≤ img_h

/- ===================================================================
   core_processor.py : document_full_processor
   =================================================================== -/

/-- Abstract image: dimensions plus an opaque content tag (`cv2` pixel
arrays are not modelled beyond their shape). -/
structure PyImage where
  width : Nat
  height : Nat
  content : Nat
deriving DecidableEq

/-- One pyzbar detection; `data` is the already utf-8 decoded payload and
`""` models falsy `barcode.data`. -/
structure Barcode where
  data : String
deriving DecidableEq

/-- Environment of external effects used by `document_full_processor`:
`os.path.exists`, `cv2.imread` (`none` = decode failure),
`_preprocess_image` (the OpenCV pipeline, abstracted),
`pyzbar.decode` plus utf-8 decoding, and `pytesseract.image_to_string`
applied to the crop of a given zone.  An `Except.error` models a raised
Python exception inside the corresponding call.  `elapsedSeconds` is the
span between the two `time.perf_counter()` reads and `workerPid` is
`os.getpid()`. -/
structure VisionEnv where
  pathExists : String → Bool
  imread : String → Option PyImage
  preprocess : PyImage → PyImage
  pyzbarDecode : PyImage → Except String (List Barcode)
  image_to_string : PyImage → Nat × Nat × Nat × Nat → Except String String
  elapsedSeconds : ℚ
  workerPid : Nat

/-- The status strings produced by core_processor.py. -/
inductive Status where
  | PROCESS_OK
  | PROCESS_FAIL
  | TIMEOUT
  | INFRA_ERROR
deriving DecidableEq

/-- The result record of core_processor.py.  The Python dicts built at
lines 172 and 175 omit the extraction keys entirely; downstream reads go
through `.get(...)` defaulting to `None` (and `0` for `time_total`), so
those records carry `none` / `0` here. -/
structure Response where
  status : Status
  ocr_total : Option String
  ocr_folio_fiscal : Option String
  qr_data : Option String
  time_total : ℚ
  error_msg : Option String
  job_id : Option String
  worker_pid : Nat
deriving DecidableEq

/-- A job dict as consumed by `document_full_processor`; `none` models a
missing key and `job_data.get(...)` reads. -/
structure JobData where
  job_id : Option String
  document_path : Option String
deriving DecidableEq

/-- Embeds Python `round(x, 4)` (`round` to the nearest multiple of
`1/10000`; the tie-to-even of Python at exact half-ties is not load-bearing
for any claim). -/
def pyRound4 (q : ℚ) : ℚ := (round (q * 10000) : ℤ) / 10000

/-- The initial `response` dict of `document_full_processor`
(lines 82-87 of core_processor.py). -/
def dfpInit (env : VisionEnv) (job_data : JobData) : Response :=
  { status := .PROCESS_FAIL, ocr_total := none, ocr_folio_fiscal := none,
    qr_data := none, time_total := 0, error_msg := none,
    job_id := job_data.job_id, worker_pid := env.workerPid }

/-- The `except Exception` handler of `document_full_processor`
(lines 124-127): sets `status = "PROCESS_FAIL"` and `error_msg = str(e)`,
leaving every other entry as already written. -/
def dfpFail (r : Response) (e : String) : Response :=
  { r with status := .PROCESS_FAIL, error_msg := some e }

/-- The `finally` block of `document_full_processor` (lines 129-131):
records the rounded wall-clock span. -/
def dfpFinal (env : VisionEnv) (r : Response) : Response :=
  { r with time_total := pyRound4 env.elapsedSeconds }

/-- The `try` body of `document_full_processor` (lines 90-122), with the
`except` handler applied on each raising path.  The `response` dict is
mutated in place in Python; that mutation is the record update threading
below, so entries written before a raise survive into the handler. -/
def dfpTry (env : VisionEnv) (job_data : JobData) : Response :=
  let response := dfpInit env job_data
  match job_data.document_path with
  | none => dfpFail response "Falta \x27document_path\x27."
  | some document_path =>
    if document_path = "" then dfpFail response "Falta \x27document_path\x27."
    else if env.pathExists document_path = false then
      dfpFail response ("Archivo no encontrado: " ++ document_path)
    else
      match env.imread document_path with
      | none => dfpFail response "Fallo de decodificación de imagen."
      | some cv_img =>
        let width := cv_img.width
        let height := cv_img.height
        let processed_bin := env.preprocess cv_img
        match env.pyzbarDecode cv_img with
        | .error e => dfpFail response e
        | .ok barcodes =>
          let qr_candidates :=
            (barcodes.filter (fun b => decide (b.data ≠ ""))).map (fun b => b.data)
          let response := { response with qr_data := qr_candidates.head? }
          let coords_folio := _denormalize_coords ZONA_FOLIO_FISCAL width height
          match env.image_to_string processed_bin coords_folio with
          | .error e => dfpFail response e
          | .ok text_folio =>
            let response :=
              { response with ocr_folio_fiscal := ocrFieldValue text_folio }
            let coords_total := _denormalize_coords ZONA_TOTAL width height
            match env.image_to_string processed_bin coords_total with
            | .error e => dfpFail response e
            | .ok text_total =>
              { response with ocr_total := ocrFieldValue text_total,
                              status := .PROCESS_OK }

/-- Embeds `document_full_processor` of core_processor.py: the `try` body
with its `except` handler, followed by the `finally` block; the function
returns a record on every input (the Python function never lets an
exception cross its boundary when called on a dict). -/
def document_full_processor (env : VisionEnv) (job_data : JobData) : Response :=
  dfpFinal env (dfpTry env job_data)

/- ===================================================================
   core_processor.py : run_cpu_task_async / result collection / metrics
   =================================================================== -/

/-- Outcome of awaiting one submitted job in `run_cpu_task_async`:
the worker call returned (carrying the worker-side environment),
`asyncio.wait_for` raised `TimeoutError`, or the await raised some other
infrastructure exception. -/
inductive TaskOutcome where
  | completed (env : VisionEnv)
  | timedOut
  | raised (e : String)

/-- Embeds `run_cpu_task_async` of core_processor.py (lines 155-175): the
completed case returns `document_full_processor(item)` as computed by the
worker; the `asyncio.TimeoutError` handler returns the literal dict of line
172; the generic handler returns the dict of line 175. -/
def run_cpu_task_async (item : JobData) (outcome : TaskOutcome) : Response :=
  match outcome with
  | .completed env => document_full_processor env item
  | .timedOut =>
      { status := .TIMEOUT, error_msg := some "Max execution time exceeded",
        job_id := item.job_id, worker_pid := 0,
        ocr_total := none, ocr_folio_fiscal := none, qr_data := none,
        time_total := 0 }
  | .raised e =>
      { status := .INFRA_ERROR, error_msg := some e,
        job_id := item.job_id, worker_pid := 0,
        ocr_total := none, ocr_folio_fiscal := none, qr_data := none,
        time_total := 0 }

/-- Embeds the fan-out/fan-in of `main_processor` (lines 188-189):
`asyncio.gather` returns one entry per submitted awaitable, in submission
order (that is gather's documented semantics; completion order only
interleaves execution and is invisible in the returned list).  The per-job
await outcomes are supplied positionally. -/
def collect_results (jobs : List JobData) (outcomes : List TaskOutcome) :
    List Response :=
  List.zipWith run_cpu_task_async jobs outcomes

/-- The `metrics` dict of `main_processor` (line 192). -/
structure Metrics where
  OK : Nat
  FAIL : Nat
  TOTAL_TIME : ℚ
deriving DecidableEq

/-- One iteration of the result loop of `main_processor` (lines 194-215):
`status == "PROCESS_OK"` increments `OK` and accumulates `time_total`
(read via `.get("time_total", 0)`); every other status increments `FAIL`. -/
def metricsStep (m : Metrics) (res : Response) : Metrics :=
  if res.status = Status.PROCESS_OK then
    { m with OK := m.OK + 1, TOTAL_TIME := m.TOTAL_TIME + res.time_total }
  else
    { m with FAIL := m.FAIL + 1 }

/-- The full metrics reduction of `main_processor` over the collected
results. -/
def analyzeResults (results : List Response) : Metrics :=
  results.foldl metricsStep { OK := 0, FAIL := 0, TOTAL_TIME := 0 }

/-- Embeds `avg_time = metrics["TOTAL_TIME"] / metrics["OK"] if
metrics["OK"] > 0 else 0` (line 217). -/
def avg_time (m : Metrics) : ℚ :=
  if 0 < m.OK then m.TOTAL_TIME / m.OK else 0

/- ===================================================================
   seeder_ingesta.py : load_and_transform_data
   =================================================================== -/

/-- A raw CSV row restricted to `COLUMNS_ORDER`: every cell is read as a
string (`dtype=str`), `none` models a missing value (pandas `NaN`). -/
structure RawRow where
  div : Option String
  provedor : Option String
  orden_compra : Option String
  mov : Option String
  fecha_entrada : Option String
  folio_factura : Option String
  codigo_articulo : Option String
  articulo : Option String
  cantidad : Option String
  precio_unitario : Option String
  importe : Option String
  fondeo : Option String
  folio_rb : Option String
deriving DecidableEq

/-- Numeric value of a non-empty all-digit character list. -/
def digitsVal (l : List Char) : Option Nat :=
  if l.isEmpty then none
  else if l.all Char.isDigit then
    some (l.foldl (fun a c => a * 10 + (c.toNat - '0'.toNat)) 0)
  else none

/-- Modelled library behavior: `pandas.to_numeric(_, errors='coerce')`,
restricted to plain decimal literals — optional leading minus, a non-empty
integer part, an optional fractional part after a dot.  Anything else
coerces to NA (`none`). -/
def pd_to_numeric (s : String) : Option ℚ :=
  let (sign, body) : ℤ × List Char :=
    match s.data with
    | '-' :: rest => (-1, rest)
    | chars => (1, chars)
  let intPart := body.takeWhile Char.isDigit
  let rest := body.dropWhile Char.isDigit
  match rest with
  | [] => (digitsVal intPart).map (fun n => ((sign * n : ℤ) : ℚ))
  | '.' :: frac =>
    if intPart.isEmpty then none
    else if frac.all Char.isDigit then
      (digitsVal intPart).map (fun n =>
        (sign : ℚ) * ((n : ℚ) +
          (((frac.foldl (fun a c => a * 10 + (c.toNat - '0'.toNat)) 0 : Nat) : ℚ) /
            (10 : ℚ) ^ frac.length)))
    else none
  | _ => none

/-- Modelled library behavior: `.astype('Int64')` applied to the float
result of `to_numeric`; exact for integral values (the code's own comment:
`3269.0` becomes `3269`), NA otherwise. -/
def astype_Int64 (q : ℚ) : Option ℤ :=
  if q.den = 1 then some q.num else none

/-- One INTEGER_COLUMNS cell after
`pd.to_numeric(df[col], errors='coerce').astype('Int64')`. -/
def toIntCol (v : Option String) : Option ℤ :=
  (v.bind pd_to_numeric).bind astype_Int64

/-- One NUMERIC_COLUMNS cell after `pd.to_numeric(df[col], errors='coerce')`. -/
def toNumCol (v : Option String) : Option ℚ :=
  v.bind pd_to_numeric

/-- A row after the type corrections of `load_and_transform_data`:
`div`, `orden_compra`, `mov` are nullable integers; `cantidad`,
`precio_unitario`, `importe` are nullable numerics; the rest stay nullable
strings (`df.astype(object).where(pd.notnull(df), None)` turns every NA
into `none`). -/
structure TransRow where
  div : Option ℤ
  provedor : Option String
  orden_compra : Option ℤ
  mov : Option ℤ
  fecha_entrada : Option String
  folio_factura : Option String
  codigo_articulo : Option String
  articulo : Option String
  cantidad : Option ℚ
  precio_unitario : Option ℚ
  importe : Option ℚ
  fondeo : Option String
  folio_rb : Option String
deriving DecidableEq

/-- The per-row type correction of `load_and_transform_data`
(lines 79-90 of seeder_ingesta.py). -/
def transformRow (r : RawRow) : TransRow :=
  { div := toIntCol r.div, provedor := r.provedor,
    orden_compra := toIntCol r.orden_compra, mov := toIntCol r.mov,
    fecha_entrada := r.fecha_entrada, folio_factura := r.folio_factura,
    codigo_articulo := r.codigo_articulo, articulo := r.articulo,
    cantidad := toNumCol r.cantidad, precio_unitario := toNumCol r.precio_unitario,
    importe := toNumCol r.importe, fondeo := r.fondeo, folio_rb := r.folio_rb }

/-- Python `str()` of a float cell, for the values arising here: integral
floats print with a trailing `.0`. -/
def pyStrFloat (q : ℚ) : String :=
  if q.den = 1 then toString q.num ++ ".0" else toString q

/-- `str(val) if val is not None else ''` for an integer cell. -/
def strCellI : Option ℤ → String
  | none => ""
  | some z => toString z

/-- `str(val) if val is not None else ''` for a numeric cell. -/
def strCellQ : Option ℚ → String
  | none => ""
  | some q => pyStrFloat q

/-- `str(val) if val is not None else ''` for a string cell. -/
def strCellS : Option String → String
  | none => ""
  | some s => s

/-- The string rendering of every cell of a transformed row, in the fixed
`COLUMNS_ORDER` (div, provedor, orden_compra, mov, fecha_entrada,
folio_factura, codigo_articulo, articulo, cantidad, precio_unitario,
importe, fondeo, folio_rb). -/
def cellStrings (r : TransRow) : List String :=
  [strCellI r.div, strCellS r.provedor, strCellI r.orden_compra,
   strCellI r.mov, strCellS r.fecha_entrada, strCellS r.folio_factura,
   strCellS r.codigo_articulo, strCellS r.articulo, strCellQ r.cantidad,
   strCellQ r.precio_unitario, strCellQ r.importe, strCellS r.fondeo,
   strCellS r.folio_rb]

/-- Embeds `"".join(str(val) if val is not None else '' for val in row)`
over `df[COLUMNS_ORDER].itertuples` (line 98 of seeder_ingesta.py). -/
def hash_input (r : TransRow) : String :=
  String.join (cellStrings r)

/-- Embeds `hashlib.sha256(hash_input.encode('utf-8')).hexdigest()`; the
SHA-256 digest itself is the abstract function `sha256hex` (a pure library
primitive: deterministic by construction). -/
def registro_hash (sha256hex : String → String) (r : TransRow) : String :=
  sha256hex (hash_input r)

/-- Scan for `drop_duplicates(keep='first')`: keeps a row exactly when it
has not been seen before. -/
def dropDupAux {α : Type} [DecidableEq α] : List α → List α → List α
  | _, [] => []
  | seen, x :: xs =>
    if x ∈ seen then dropDupAux seen xs
    else x :: dropDupAux (x :: seen) xs

/-- Embeds `df.drop_duplicates(subset=COLUMNS_ORDER, keep='first')`
(line 70 of seeder_ingesta.py): each row is kept at its first occurrence
and every later exact copy is dropped. -/
def drop_duplicates {α : Type} [DecidableEq α] (l : List α) : List α :=
  dropDupAux [] l

/-- The table of `load_and_transform_data` restricted to the thirteen
ingest columns: duplicates dropped on the raw string rows, then the type
corrections applied row-wise. -/
def load_and_transform_rows (rows : List RawRow) : List TransRow :=
  (drop_duplicates rows).map transformRow

/-- Embeds `load_and_transform_data` (rows paired with their
`registro_hash` column). -/
def load_and_transform_data (sha256hex : String → String)
    (rows : List RawRow) : List (TransRow × String) :=
  (load_and_transform_rows rows).map (fun r => (r, registro_hash sha256hex r))

/- ===================================================================
   Concrete data for witnesses and counterexamples
   =================================================================== -/

/-- A concrete 800x600 image. -/
def imgW : PyImage := { width := 800, height := 600, content := 0 }

/-- A concrete well-formed job dict. -/
def jobW : JobData :=
  { job_id := some "TASK_00", document_path := some "/data/factura.png" }

/-- Environment in which the document path does not exist. -/
def envMissingFile : VisionEnv :=
  { pathExists := fun _ => false
    imread := fun _ => none
    preprocess := fun i => i
    pyzbarDecode := fun _ => .ok []
    image_to_string := fun _ _ => .ok ""
    elapsedSeconds := 0
    workerPid := 31 }

/-- Environment in which barcode and folio extraction succeed but the OCR
call on the total zone raises. -/
def envPartialFail : VisionEnv :=
  { pathExists := fun _ => true
    imread := fun _ => some imgW
    preprocess := fun i => i
    pyzbarDecode := fun _ => .ok [{ data := "https://sat.gob.mx?id=3fa85f64" }]
    image_to_string := fun _ zone =>
      if zone = _denormalize_coords ZONA_TOTAL 800 600 then
        .error "TesseractError: engine failure"
      else .ok "FOLIO-3FA85F64"
    elapsedSeconds := 1 / 2
    workerPid := 7 }

/-- Environment in which every stage succeeds and the total zone transcript
contains two label-amount matches. -/
def envTwoTotals : VisionEnv :=
  { pathExists := fun _ => true
    imread := fun _ => some imgW
    preprocess := fun i => i
    pyzbarDecode := fun _ => .ok []
    image_to_string := fun _ zone =>
      if zone = _denormalize_coords ZONA_TOTAL 800 600 then
        .ok "Total: 100.00 ... Total: 250.00"
      else .ok "FOLIO"
    elapsedSeconds := 0
    workerPid := 9 }

/-- Environment in which every stage succeeds, with a given elapsed time. -/
def envOkWith (t : ℚ) : VisionEnv :=
  { pathExists := fun _ => true
    imread := fun _ => some imgW
    preprocess := fun i => i
    pyzbarDecode := fun _ => .ok []
    image_to_string := fun _ _ => .ok "TEXT"
    elapsedSeconds := t
    workerPid := 5 }

/-- A concrete four-job batch. -/
def jobsBatch : List JobData :=
  [{ job_id := some "TASK_00", document_path := some "/data/f.png" },
   { job_id := some "TASK_01", document_path := some "/data/f.png" },
   { job_id := some "TASK_02", document_path := some "/data/f.png" },
   { job_id := some "TASK_03", document_path := some "/data/f.png" }]

/-- Await outcomes for `jobsBatch`: three completions with elapsed times
1, 2, 3 seconds and one per-job timeout. -/
def outcomesBatch : List TaskOutcome :=
  [.completed (envOkWith 1), .completed (envOkWith 2),
   .completed (envOkWith 3), .timedOut]

/-- A concrete raw CSV row whose integer column `div` holds the no-data
marker `"N/D"`. -/
def rawRowA : RawRow :=
  { div := some "N/D", provedor := some "ACME",
    orden_compra := some "101", mov := some "2",
    fecha_entrada := some "2024-01-01", folio_factura := some "F-77",
    codigo_articulo := some "C1", articulo := some "Tornillo",
    cantidad := some "4", precio_unitario := some "10",
    importe := some "40", fondeo := some "FED", folio_rb := some "RB9" }

/-- The same row with `div` written `"S/N"` instead of `"N/D"`: a distinct
raw string row whose `div` also coerces to NA, so the transformed rows
coincide on all thirteen columns. -/
def rawRowB : RawRow := { rawRowA with div := some "S/N" }

/- ===================================================================
   Theorems
   =================================================================== -/

theorem head?_dropWhile_not {α : Type} (p : α → Bool) :
    ∀ (l : List α) (c : α), (l.dropWhile p).head? = some c → p c = false := by
  intro l
  induction l with
  | nil => intro c hc; simp [List.dropWhile] at hc
  | cons a l ih =>
    intro c hc
    rw [List.dropWhile_cons] at hc
    by_cases h : p a = true
    · rw [if_pos h] at hc
      exact ih c hc
    · rw [if_neg h] at hc
      simp only [List.head?_cons, Option.some.injEq] at hc
      subst hc
      simpa using h

theorem dropWhile_eq_self_of_head {α : Type} (p : α → Bool) (l : List α)
    (h : ∀ c, l.head? = some c → p c = false) : l.dropWhile p = l := by
  cases l with
  | nil => rfl
  | cons a l => simp [List.dropWhile_cons, h a rfl]

theorem head?_of_prefix {α : Type} {X M : List α} (h : X <+: M) {c : α}
    (hc : X.head? = some c) : M.head? = some c := by
  obtain ⟨t, rfl⟩ := h
  cases X with
  | nil => simp at hc
  | cons a X =>
    simp only [List.head?_cons, Option.some.injEq] at hc
    simpa [List.cons_append] using hc

theorem mem_collapseWs_ws :
    ∀ (l : List Char), ∀ c ∈ collapseWs l, isPySpace c = true → c = ' ' := by
  intro l
  induction l using collapseWs.induct with
  | case1 => simp [collapseWs]
  | case2 c cs h ih =>
    intro x hx hws
    rw [collapseWs, if_pos h] at hx
    rcases List.mem_cons.mp hx with h1 | h1
    · exact h1
    · exact ih x h1 hws
  | case3 c cs h ih =>
    intro x hx hws
    rw [collapseWs, if_neg h] at hx
    rcases List.mem_cons.mp hx with h1 | h1
    · subst h1; exact absurd hws (by simpa using h)
    · exact ih x h1 hws

theorem head?_collapseWs (l : List Char)
    (h : ∀ c, l.head? = some c → isPySpace c = false) :
    ∀ c, (collapseWs l).head? = some c → isPySpace c = false := by
  cases l with
  | nil => intro c hc; simp [collapseWs] at hc
  | cons a l =>
    have ha : isPySpace a = false := h a rfl
    intro c hc
    rw [collapseWs, if_neg (by simp [ha])] at hc
    simp only [List.head?_cons, Option.some.injEq] at hc
    subst hc
    exact ha

theorem head?_collapseWs_dropWhile (m : List Char) :
    ∀ c, (collapseWs (m.dropWhile isPySpace)).head? = some c →
      isPySpace c = false :=
  head?_collapseWs _ (fun c hc => head?_dropWhile_not _ _ c hc)

theorem chain'_collapseWs (l : List Char) : NoAdjWs (collapseWs l) := by
  induction l using collapseWs.induct with
  | case1 => simp [collapseWs, NoAdjWs]
  | case2 c cs h ih =>
    rw [NoAdjWs, collapseWs, if_pos h, List.chain'_cons']
    refine ⟨?_, ih⟩
    intro y hy
    have hns := head?_collapseWs_dropWhile cs y hy
    simp [hns]
  | case3 c cs h ih =>
    rw [NoAdjWs, collapseWs, if_neg h, List.chain'_cons']
    refine ⟨?_, ih⟩
    intro y _
    simp only [not_and]
    intro hc
    exact absurd hc h

theorem collapseWs_eq_self :
    ∀ (l : List Char), (∀ c ∈ l, isPySpace c = true → c = ' ') → NoAdjWs l →
      collapseWs l = l := by
  intro l
  induction l using collapseWs.induct with
  | case1 => intro _ _; rw [collapseWs]
  | case2 c cs h ih =>
    intro h1 h2
    have hc : c = ' ' := h1 c (List.mem_cons_self _ _) h
    have hhd : ∀ y, cs.head? = some y → isPySpace y = false := by
      intro y hy
      have hR := (List.chain'_cons'.mp h2).1 y hy
      by_contra hy'
      exact hR ⟨h, by simpa using hy'⟩
    have hdw : cs.dropWhile isPySpace = cs := dropWhile_eq_self_of_head _ _ hhd
    rw [hdw] at ih
    rw [collapseWs, if_pos h, hdw, hc]
    rw [ih (fun x hx => h1 x (List.mem_cons_of_mem _ hx)) (List.Chain'.tail h2)]
  | case3 c cs h ih =>
    intro h1 h2
    rw [collapseWs, if_neg h]
    rw [ih (fun x hx => h1 x (List.mem_cons_of_mem _ hx)) (List.Chain'.tail h2)]

theorem pyStrip_eq_self (l : List Char)
    (hh : ∀ c, l.head? = some c → isPySpace c = false)
    (hl : ∀ c, l.getLast? = some c → isPySpace c = false) : pyStrip l = l := by
  unfold pyStrip
  rw [dropWhile_eq_self_of_head _ _ hh]
  rw [List.rdropWhile_eq_self_iff]
  intro hne
  have := hl (l.getLast hne) (List.getLast?_eq_getLast l hne)
  simp [this]

theorem pyStrip_sublist (l : List Char) : List.Sublist (pyStrip l) l :=
  ((List.rdropWhile_prefix _ (l.dropWhile isPySpace)).sublist).trans
    (List.dropWhile_sublist _)

theorem pyStrip_infixOf (l : List Char) : pyStrip l <:+: l :=
  ((List.rdropWhile_prefix _ (l.dropWhile isPySpace)).isInfix).trans
    ((List.dropWhile_suffix isPySpace).isInfix)

theorem pyStrip_head_not_ws (l : List Char) :
    ∀ c, (pyStrip l).head? = some c → isPySpace c = false := by
  intro c hc
  have hM : (l.dropWhile isPySpace).head? = some c :=
    head?_of_prefix (List.rdropWhile_prefix _ (l.dropWhile isPySpace)) hc
  exact head?_dropWhile_not _ _ c hM

theorem pyStrip_getLast_not_ws (l : List Char) :
    ∀ c, (pyStrip l).getLast? = some c → isPySpace c = false := by
  intro c hc
  have : ((l.dropWhile isPySpace).reverse.dropWhile isPySpace).reverse.getLast? =
      some c := hc
  rw [List.getLast?_reverse] at this
  exact head?_dropWhile_not _ _ c this

theorem clean_ocr_text_data (s : String) :
    (clean_ocr_text s).data = [] ∨
      (clean_ocr_text s).data = pyStrip (collapseWs s.data) := by
  unfold clean_ocr_text
  split
  · left; rfl
  · right; rfl

theorem clean_props (s : String) :
    (∀ c ∈ (clean_ocr_text s).data, isPySpace c = true → c = ' ')
    ∧ NoAdjWs (clean_ocr_text s).data
    ∧ (∀ c, (clean_ocr_text s).data.head? = some c → isPySpace c = false)
    ∧ (∀ c, (clean_ocr_text s).data.getLast? = some c → isPySpace c = false) := by
  rcases clean_ocr_text_data s with h | h <;> rw [h]
  · exact ⟨by simp, by simp [NoAdjWs], by simp, by simp⟩
  · refine ⟨?_, ?_, pyStrip_head_not_ws _, pyStrip_getLast_not_ws _⟩
    · intro c hc
      exact mem_collapseWs_ws _ c ((pyStrip_sublist _).subset hc)
    · exact List.Chain'.infix (chain'_collapseWs s.data) (pyStrip_infixOf _)

/-- C8: `clean_ocr_text` is idempotent, and its output contains no newline,
tab or carriage-return character, no two adjacent spaces, and no leading or
trailing whitespace. -/
theorem clean_ocr_text_idempotent_normalized (s : String) :
    clean_ocr_text (clean_ocr_text s) = clean_ocr_text s
    ∧ (∀ c ∈ (clean_ocr_text s).data, c ≠ '\n' ∧ c ≠ '\t' ∧ c ≠ '\r')
    ∧ List.Chain' (fun a b => ¬(a = ' ' ∧ b = ' ')) (clean_ocr_text s).data
    ∧ (∀ c, (clean_ocr_text s).data.head? = some c → isPySpace c = false)
    ∧ (∀ c, (clean_ocr_text s).data.getLast? = some c → isPySpace c = false) := by
  obtain ⟨hsp, hchain, hhd, hlast⟩ := clean_props s
  refine ⟨?_, ?_, ?_, hhd, hlast⟩
  · by_cases h0 : clean_ocr_text s = ""
    · rw [h0]; rfl
    · conv_lhs => rw [clean_ocr_text]
      rw [if_neg h0, collapseWs_eq_self _ hsp hchain, pyStrip_eq_self _ hhd hlast]
  · intro c hc
    refine ⟨?_, ?_, ?_⟩ <;>
      · rintro rfl
        have := hsp _ hc (by decide)
        simp at this
  · refine List.Chain'.imp ?_ hchain
    intro a b hab ⟨ha, hb⟩
    exact hab ⟨by rw [ha]; decide, by rw [hb]; decide⟩

/-- Witness for C8 at a concrete messy string. -/
theorem clean_ocr_text_idempotent_normalized_witness :
    clean_ocr_text (clean_ocr_text "  Total: \n\t 123.45 \r\n") =
      clean_ocr_text "  Total: \n\t 123.45 \r\n" :=
  (clean_ocr_text_idempotent_normalized "  Total: \n\t 123.45 \r\n").1

/-- C9: for a normalized zone whose left and top coordinates are below the
1000 base and a non-degenerate image, `_denormalize_coords` yields a crop
region that is non-empty (right edge strictly beyond left, bottom strictly
beyond top) and contained in the image. -/
theorem denormalize_coords_bounds (x1 y1 x2 y2 img_w img_h : Nat)
    (hx : x1 < 1000) (hy : y1 < 1000) (hw : 1 ≤ img_w) (hh : 1 ≤ img_h) :
    crop_region_ok (_denormalize_coords (x1, y1, x2, y2) img_w img_h)
      img_w img_h := by
  rw [crop_region_ok]
  have hx1 : x1 * img_w / 1000 < img_w := by
    rw [Nat.div_lt_iff_lt_mul (by norm_num)]
    calc x1 * img_w < 1000 * img_w :=
          (Nat.mul_lt_mul_right (Nat.lt_of_lt_of_le Nat.one_pos hw)).mpr hx
      _ = img_w * 1000 := Nat.mul_comm _ _
  have hy1 : y1 * img_h / 1000 < img_h := by
    rw [Nat.div_lt_iff_lt_mul (by norm_num)]
    calc y1 * img_h < 1000 * img_h :=
          (Nat.mul_lt_mul_right (Nat.lt_of_lt_of_le Nat.one_pos hh)).mpr hy
      _ = img_h * 1000 := Nat.mul_comm _ _
  refine ⟨?_, ?_, ?_, ?_⟩
  · exact Nat.lt_of_lt_of_le (Nat.lt_succ_self _) (le_max_left _ _)
  · exact Nat.lt_of_lt_of_le (Nat.lt_succ_self _) (le_max_left _ _)
  · exact max_le hx1 (min_le_right _ _)
  · exact max_le hy1 (min_le_right _ _)

/-- Witness for C9 at the repository's folio zone on a 800x600 image. -/
theorem denormalize_coords_bounds_witness :
    (700 < 1000 ∧ 100 < 1000 ∧ 1 ≤ 800 ∧ 1 ≤ 600) ∧
    crop_region_ok (_denormalize_coords (700, 100, 950, 150) 800 600) 800 600 :=
  ⟨by decide,
   denormalize_coords_bounds 700 100 950 150 800 600 (by decide) (by decide)
     (by decide) (by decide)⟩

theorem pyRound4_nonneg (q : ℚ) (h : 0 ≤ q) : 0 ≤ pyRound4 q := by
  unfold pyRound4
  have hr : (0 : ℤ) ≤ round (q * 10000) := by
    rw [round_eq]
    refine Int.le_floor.mpr ?_
    push_cast
    have : (0 : ℚ) ≤ q * 10000 := by positivity
    linarith
  have : (0 : ℚ) ≤ (round (q * 10000) : ℤ) := by exact_mod_cast hr
  positivity

theorem dfpTry_spec (env : VisionEnv) (job : JobData) :
    ((dfpTry env job).status = Status.PROCESS_OK ∨
      ((dfpTry env job).status = Status.PROCESS_FAIL ∧
        (dfpTry env job).error_msg ≠ none))
    ∧ ((dfpTry env job).status = Status.PROCESS_OK →
        (dfpTry env job).error_msg = none)
    ∧ ((dfpTry env job).status ≠ Status.PROCESS_OK →
        (dfpTry env job).ocr_total = none)
    ∧ (dfpTry env job).job_id = job.job_id
    ∧ (dfpTry env job).worker_pid = env.workerPid
    ∧ (dfpTry env job).time_total = 0 := by
  unfold dfpTry
  repeat' split
  all_goals try simp [dfpInit, dfpFail]
  all_goals (repeat' split)
  all_goals simp [dfpInit, dfpFail]

/-- C1: called on any job dict (keys possibly missing, path possibly
nonexistent, image bytes possibly undecodable), `document_full_processor`
returns a result record — never an exception (the Lean embedding is a total
function into `Response`, with every modelled raising call routed through
the `except` handler); every failure path carries status `PROCESS_FAIL`
with a non-null error message, and the record always carries the rounded
non-negative elapsed time and the worker pid. -/
theorem document_full_processor_never_raises (env : VisionEnv) (job : JobData)
    (helapsed : 0 ≤ env.elapsedSeconds) :
    let r := document_full_processor env job
    (r.status = Status.PROCESS_OK ∨ r.status = Status.PROCESS_FAIL)
    ∧ (r.status ≠ Status.PROCESS_OK →
        r.status = Status.PROCESS_FAIL ∧ r.error_msg ≠ none)
    ∧ r.time_total = pyRound4 env.elapsedSeconds
    ∧ 0 ≤ r.time_total
    ∧ r.worker_pid = env.workerPid
    ∧ r.job_id = job.job_id := by
  obtain ⟨h1, h2, h3, h4, h5, h6⟩ := dfpTry_spec env job
  have hs : (document_full_processor env job).status = (dfpTry env job).status := rfl
  have he : (document_full_processor env job).error_msg =
      (dfpTry env job).error_msg := rfl
  have ht : (document_full_processor env job).time_total =
      pyRound4 env.elapsedSeconds := rfl
  refine ⟨?_, ?_, ht, ?_, ?_, ?_⟩
  · rw [hs]
    rcases h1 with h | h
    · exact Or.inl h
    · exact Or.inr h.1
  · intro hne
    rw [hs, he]
    rcases h1 with h | h
    · exact absurd (hs.trans h) hne
    · exact h
  · rw [ht]; exact pyRound4_nonneg _ helapsed
  · exact h5
  · exact h4

/-- Witness for C1 on a job whose document path does not exist. -/
theorem document_full_processor_never_raises_witness :
    (0 : ℚ) ≤ envMissingFile.elapsedSeconds ∧
    ((document_full_processor envMissingFile jobW).status = Status.PROCESS_OK ∨
      (document_full_processor envMissingFile jobW).status = Status.PROCESS_FAIL) :=
  ⟨le_refl 0,
   (document_full_processor_never_raises envMissingFile jobW (le_refl 0)).1⟩

/-- C2 counterexample: when barcode and folio extraction succeed and the
total OCR call then raises, the result has a non-OK status yet carries the
already-extracted `qr_data` and `ocr_folio_fiscal` — refuting "status ≠ OK
implies every extraction field is null". -/
theorem response_partial_fields_on_fail_cex :
    (document_full_processor envPartialFail jobW).status ≠ Status.PROCESS_OK
    ∧ (document_full_processor envPartialFail jobW).qr_data =
        some "https://sat.gob.mx?id=3fa85f64"
    ∧ (document_full_processor envPartialFail jobW).ocr_folio_fiscal =
        some "FOLIO-3FA85F64" := by
  decide

/-- C2 (amended): a result with status OK has a null error message, and a
result with any other status has a null `ocr_total` (the total is the last
field written, immediately before the status turns OK); `qr_data` and
`ocr_folio_fiscal`, however, may survive on a failure that strikes after
their extraction. -/
theorem response_ok_error_null_fail_total_null (env : VisionEnv) (job : JobData) :
    ((document_full_processor env job).status = Status.PROCESS_OK →
      (document_full_processor env job).error_msg = none)
    ∧ ((document_full_processor env job).status ≠ Status.PROCESS_OK →
      (document_full_processor env job).ocr_total = none) := by
  obtain ⟨-, h2, h3, -, -, -⟩ := dfpTry_spec env job
  exact ⟨fun h => h2 h, fun h => h3 h⟩

/-- Witness for the amended C2 on the missing-file environment. -/
theorem response_ok_error_null_fail_total_null_witness :
    (document_full_processor envMissingFile jobW).status ≠ Status.PROCESS_OK ∧
    (document_full_processor envMissingFile jobW).ocr_total = none :=
  ⟨by decide, (response_ok_error_null_fail_total_null envMissingFile jobW).2 (by decide)⟩

/-- C6 counterexample: on a transcript with two label-amount matches the
code surfaces the whole whitespace-normalized zone transcript — it performs
no label matching and no last-match tie-break, so the result is not
`"250.00"`. -/
theorem ocr_total_no_tiebreak_cex :
    (document_full_processor envTwoTotals jobW).status = Status.PROCESS_OK
    ∧ (document_full_processor envTwoTotals jobW).ocr_total =
        some "Total: 100.00 ... Total: 250.00"
    ∧ (document_full_processor envTwoTotals jobW).ocr_total ≠ some "250.00" := by
  decide

/-- C6 (amended): on the success path the extractor surfaces the
whitespace-normalized OCR transcript of the configured total zone verbatim
(`None` when the transcript is empty); no label-amount pattern is matched
and no tie-break is applied. -/
theorem ocr_total_surfaces_zone_transcript (env : VisionEnv) (job : JobData)
    (dp : String) (img : PyImage) (bcs : List Barcode)
    (text_folio text_total : String)
    (h1 : job.document_path = some dp) (h2 : dp ≠ "")
    (h3 : env.pathExists dp = true)
    (h4 : env.imread dp = some img)
    (h5 : env.pyzbarDecode img = .ok bcs)
    (h6 : env.image_to_string (env.preprocess img)
        (_denormalize_coords ZONA_FOLIO_FISCAL img.width img.height) =
        .ok text_folio)
    (h7 : env.image_to_string (env.preprocess img)
        (_denormalize_coords ZONA_TOTAL img.width img.height) =
        .ok text_total) :
    (document_full_processor env job).status = Status.PROCESS_OK
    ∧ (document_full_processor env job).ocr_total = ocrFieldValue text_total := by
  unfold document_full_processor dfpFinal dfpTry
  rw [h1]
  simp [h2, h3, h4, h5, h6, h7]

/-- Witness for the amended C6 at the two-totals transcript. -/
theorem ocr_total_surfaces_zone_transcript_witness :
    (document_full_processor envTwoTotals jobW).ocr_total =
      ocrFieldValue "Total: 100.00 ... Total: 250.00" :=
  (ocr_total_surfaces_zone_transcript envTwoTotals jobW "/data/factura.png"
    imgW [] "FOLIO" "Total: 100.00 ... Total: 250.00"
    rfl (by decide) rfl rfl rfl rfl rfl).2

theorem getElem?_zipWith_eq {α β γ : Type} (f : α → β → γ) :
    ∀ (l₁ : List α) (l₂ : List β) (i : Nat),
      (List.zipWith f l₁ l₂)[i]? =
        match l₁[i]?, l₂[i]? with
        | some a, some b => some (f a b)
        | _, _ => none := by
  intro l₁
  induction l₁ with
  | nil => intro l₂ i; simp
  | cons a l ih =>
    intro l₂ i
    cases l₂ with
    | nil => simp
    | cons b l₂ =>
      cases i with
      | zero => simp
      | succ n => simpa using ih l₂ n

theorem run_cpu_task_async_job_id (item : JobData) (o : TaskOutcome) :
    (run_cpu_task_async item o).job_id = item.job_id := by
  cases o with
  | completed env => exact (dfpTry_spec env item).2.2.2.1
  | timedOut => rfl
  | raised e => rfl

theorem collect_results_map_job_id :
    ∀ (jobs : List JobData) (outcomes : List TaskOutcome),
      outcomes.length = jobs.length →
      (collect_results jobs outcomes).map (fun r => r.job_id) =
        jobs.map (fun j => j.job_id) := by
  intro jobs
  induction jobs with
  | nil => intro outcomes _; simp [collect_results]
  | cons j js ih =>
    intro outcomes h
    cases outcomes with
    | nil => simp at h
    | cons o os =>
      simp only [collect_results, List.zipWith_cons_cons, List.map_cons]
      rw [run_cpu_task_async_job_id]
      have htl := ih os (by simp at h; omega)
      rw [collect_results] at htl
      rw [htl]

/-- C3: the orchestrator's collection produces exactly one result per
submitted job, and the results — hence their job ids — are in submission
order (the per-job await outcomes are positional, so any completion order
yields the same list). -/
theorem collect_results_one_per_job (jobs : List JobData)
    (outcomes : List TaskOutcome) (hlen : outcomes.length = jobs.length) :
    (collect_results jobs outcomes).length = jobs.length
    ∧ (collect_results jobs outcomes).map (fun r => r.job_id) =
        jobs.map (fun j => j.job_id) := by
  constructor
  · rw [collect_results, List.length_zipWith, hlen, Nat.min_self]
  · exact collect_results_map_job_id jobs outcomes hlen

/-- Witness for C3 on the concrete four-job batch. -/
theorem collect_results_one_per_job_witness :
    outcomesBatch.length = jobsBatch.length ∧
    (collect_results jobsBatch outcomesBatch).length = jobsBatch.length :=
  ⟨rfl, (collect_results_one_per_job jobsBatch outcomesBatch rfl).1⟩

/-- C4 counterexample: a timed-out job yields status TIMEOUT with worker id
0, but its error message is `"Max execution time exceeded"`, not the
`"deadline exceeded"` stated by the claim. -/
theorem run_cpu_task_timeout_message_cex :
    (run_cpu_task_async jobW TaskOutcome.timedOut).status = Status.TIMEOUT
    ∧ (run_cpu_task_async jobW TaskOutcome.timedOut).worker_pid = 0
    ∧ (run_cpu_task_async jobW TaskOutcome.timedOut).error_msg ≠
        some "deadline exceeded"
    ∧ (run_cpu_task_async jobW TaskOutcome.timedOut).error_msg =
        some "Max execution time exceeded" := by
  decide

/-- C4 (amended): a job whose await hits the per-job deadline yields a
result with status TIMEOUT, worker id 0 and error message
`"Max execution time exceeded"`; every other entry of the collected list
depends only on its own job and await outcome, so siblings are unaffected. -/
theorem timeout_yields_timeout_record (jobs : List JobData)
    (outcomes : List TaskOutcome) (i : Nat) (j : JobData)
    (hj : jobs[i]? = some j) (ho : outcomes[i]? = some TaskOutcome.timedOut) :
    (collect_results jobs outcomes)[i]? = some
      { status := Status.TIMEOUT, error_msg := some "Max execution time exceeded",
        job_id := j.job_id, worker_pid := 0, ocr_total := none,
        ocr_folio_fiscal := none, qr_data := none, time_total := 0 }
    ∧ ∀ (outcomes' : List TaskOutcome) (k : Nat),
        outcomes'[k]? = outcomes[k]? →
        (collect_results jobs outcomes')[k]? =
          (collect_results jobs outcomes)[k]? := by
  constructor
  · rw [collect_results, getElem?_zipWith_eq, hj, ho]
    rfl
  · intro outcomes' k hk
    rw [collect_results, collect_results, getElem?_zipWith_eq,
      getElem?_zipWith_eq, hk]

/-- Witness for the amended C4: the fourth entry of the concrete batch. -/
theorem timeout_yields_timeout_record_witness :
    (collect_results jobsBatch outcomesBatch)[3]? = some
      { status := Status.TIMEOUT, error_msg := some "Max execution time exceeded",
        job_id := some "TASK_03", worker_pid := 0, ocr_total := none,
        ocr_folio_fiscal := none, qr_data := none, time_total := 0 } :=
  (timeout_yields_timeout_record jobsBatch outcomesBatch 3
    { job_id := some "TASK_03", document_path := some "/data/f.png" }
    rfl rfl).1

theorem countP_add_countP_not {α : Type} (p : α → Bool) (l : List α) :
    l.countP p + l.countP (fun a => !(p a)) = l.length := by
  induction l with
  | nil => simp
  | cons a l ih =>
    by_cases h : p a = true <;>
      simp [List.countP_cons, h, List.length_cons] <;> omega

theorem analyze_foldl (rs : List Response) :
    ∀ (init : Metrics),
      (rs.foldl metricsStep init).OK =
        init.OK + rs.countP (fun r => decide (r.status = Status.PROCESS_OK))
      ∧ (rs.foldl metricsStep init).FAIL =
        init.FAIL + rs.countP (fun r => !(decide (r.status = Status.PROCESS_OK)))
      ∧ (rs.foldl metricsStep init).TOTAL_TIME =
        init.TOTAL_TIME +
          ((rs.filter (fun r => decide (r.status = Status.PROCESS_OK))).map
            (fun r => r.time_total)).sum := by
  induction rs with
  | nil => intro init; simp
  | cons r rs ih =>
    intro init
    simp only [List.foldl_cons]
    obtain ⟨i1, i2, i3⟩ := ih (metricsStep init r)
    by_cases h : r.status = Status.PROCESS_OK
    · have hstep : metricsStep init r =
          { init with OK := init.OK + 1,
                      TOTAL_TIME := init.TOTAL_TIME + r.time_total } := by
        simp [metricsStep, h]
      rw [hstep] at i1 i2 i3
      rw [hstep]
      refine ⟨?_, ?_, ?_⟩
      · rw [i1]; simp [List.countP_cons, h]; omega
      · rw [i2]; simp [List.countP_cons, h]
      · rw [i3]; simp [List.filter_cons, h]; ring
    · have hstep : metricsStep init r = { init with FAIL := init.FAIL + 1 } := by
        simp [metricsStep, h]
      rw [hstep] at i1 i2 i3
      rw [hstep]
      refine ⟨?_, ?_, ?_⟩
      · rw [i1]; simp [List.countP_cons, h]
      · rw [i2]; simp [List.countP_cons, h]; omega
      · rw [i3]; simp [List.filter_cons, h]

/-- C5: the batch metrics are a pure reduction of the collected result
list: `OK` counts exactly the PROCESS_OK results, `FAIL` counts all other
results (the two sum to the number of submitted jobs), `TOTAL_TIME` sums
`time_total` over the PROCESS_OK results only, and the average latency is
that sum divided by the OK count, or 0 when the OK count is 0. -/
theorem analyzeResults_pure_reduction (jobs : List JobData)
    (outcomes : List TaskOutcome) (hlen : outcomes.length = jobs.length) :
    let results := collect_results jobs outcomes
    let m := analyzeResults results
    m.OK = (results.filter (fun r => decide (r.status = Status.PROCESS_OK))).length
    ∧ m.FAIL =
        (results.filter (fun r => !(decide (r.status = Status.PROCESS_OK)))).length
    ∧ m.OK + m.FAIL = jobs.length
    ∧ m.TOTAL_TIME =
        ((results.filter (fun r => decide (r.status = Status.PROCESS_OK))).map
          (fun r => r.time_total)).sum
    ∧ avg_time m =
        (if 0 < m.OK then m.TOTAL_TIME / (m.OK : ℚ) else 0) := by
  intro results m
  obtain ⟨h1, h2, h3⟩ := analyze_foldl results { OK := 0, FAIL := 0, TOTAL_TIME := 0 }
  have hOK : m.OK = results.countP (fun r => decide (r.status = Status.PROCESS_OK)) := by
    simpa using h1
  have hFAIL : m.FAIL =
      results.countP (fun r => !(decide (r.status = Status.PROCESS_OK))) := by
    simpa using h2
  have hlen2 : results.length = jobs.length := by
    show (List.zipWith run_cpu_task_async jobs outcomes).length = jobs.length
    rw [List.length_zipWith, hlen, Nat.min_self]
  refine ⟨?_, ?_, ?_, ?_, rfl⟩
  · rw [hOK, List.countP_eq_length_filter]
  · rw [hFAIL, List.countP_eq_length_filter]
  · rw [hOK, hFAIL, countP_add_countP_not, hlen2]
  · simpa using h3

/-- Witness for C5 on the concrete four-job batch. -/
theorem analyzeResults_pure_reduction_witness :
    outcomesBatch.length = jobsBatch.length ∧
    (analyzeResults (collect_results jobsBatch outcomesBatch)).OK =
      ((collect_results jobsBatch outcomesBatch).filter
        (fun r => decide (r.status = Status.PROCESS_OK))).length :=
  ⟨rfl, (analyzeResults_pure_reduction jobsBatch outcomesBatch rfl).1⟩

/-- Concrete check of the metrics example: three OK results and one
timeout in the concrete batch give ok=3 and fail=1. -/
theorem metrics_example_batch :
    (analyzeResults (collect_results jobsBatch outcomesBatch)).OK = 3
    ∧ (analyzeResults (collect_results jobsBatch outcomesBatch)).FAIL = 1 :=
  ⟨by decide, by decide⟩

/-- Concrete check of the aggregator formula on the spec's example numbers:
total time 6 over 3 OK results averages to 2. -/
theorem avg_time_example :
    avg_time { OK := 3, FAIL := 1, TOTAL_TIME := 6 } = 2 := by
  norm_num [avg_time]

theorem mem_dropDupAux {α : Type} [DecidableEq α] :
    ∀ (l seen : List α) (a : α),
      a ∈ dropDupAux seen l ↔ a ∈ l ∧ a ∉ seen := by
  intro l
  induction l with
  | nil => intro seen a; simp [dropDupAux]
  | cons x xs ih =>
    intro seen a
    rw [dropDupAux]
    by_cases hx : x ∈ seen
    · rw [if_pos hx, ih]
      simp only [List.mem_cons]
      constructor
      · rintro ⟨h1, h2⟩
        exact ⟨Or.inr h1, h2⟩
      · rintro ⟨h1 | h1, h2⟩
        · subst h1; exact absurd hx h2
        · exact ⟨h1, h2⟩
    · rw [if_neg hx]
      simp only [List.mem_cons, ih]
      by_cases hax : a = x
      · subst hax
        simp [hx]
      · simp [hax]

theorem nodup_dropDupAux {α : Type} [DecidableEq α] :
    ∀ (l seen : List α), (dropDupAux seen l).Nodup := by
  intro l
  induction l with
  | nil => intro seen; rw [dropDupAux]; exact List.nodup_nil
  | cons x xs ih =>
    intro seen
    rw [dropDupAux]
    by_cases hx : x ∈ seen
    · rw [if_pos hx]; exact ih seen
    · rw [if_neg hx]
      rw [List.nodup_cons]
      refine ⟨?_, ih (x :: seen)⟩
      intro hmem
      exact ((mem_dropDupAux xs (x :: seen) x).mp hmem).2 (List.mem_cons_self x seen)

theorem sublist_dropDupAux {α : Type} [DecidableEq α] :
    ∀ (l seen : List α), List.Sublist (dropDupAux seen l) l := by
  intro l
  induction l with
  | nil =>
    intro seen
    rw [dropDupAux]
  | cons x xs ih =>
    intro seen
    rw [dropDupAux]
    by_cases hx : x ∈ seen
    · rw [if_pos hx]; exact (ih seen).cons x
    · rw [if_neg hx]; exact (ih (x :: seen)).cons₂ x

theorem dropDupAux_congr {α : Type} [DecidableEq α] :
    ∀ (l s₁ s₂ : List α), (∀ a, a ∈ s₁ ↔ a ∈ s₂) →
      dropDupAux s₁ l = dropDupAux s₂ l := by
  intro l
  induction l with
  | nil => intro s₁ s₂ _; rw [dropDupAux, dropDupAux]
  | cons x xs ih =>
    intro s₁ s₂ h
    rw [dropDupAux, dropDupAux]
    by_cases hx : x ∈ s₁
    · rw [if_pos hx, if_pos ((h x).mp hx)]
      exact ih s₁ s₂ h
    · rw [if_neg hx, if_neg (fun hc => hx ((h x).mpr hc))]
      exact congrArg (List.cons x)
        (ih (x :: s₁) (x :: s₂) (fun a => by simp [List.mem_cons, h a]))

theorem foldl_keepFirst_eq_dropDupAux {α : Type} [DecidableEq α] :
    ∀ (l acc : List α),
      l.foldl (fun acc x => if x ∈ acc then acc else acc ++ [x]) acc =
        acc ++ dropDupAux acc l := by
  intro l
  induction l with
  | nil => intro acc; rw [dropDupAux]; simp
  | cons x xs ih =>
    intro acc
    simp only [List.foldl_cons]
    rw [dropDupAux]
    by_cases hx : x ∈ acc
    · rw [if_pos hx, if_pos hx, ih]
    · rw [if_neg hx, if_neg hx, ih (acc ++ [x])]
      rw [dropDupAux_congr xs (acc ++ [x]) (x :: acc)
        (fun a => by simp [List.mem_append, List.mem_cons, or_comm])]
      rw [List.append_assoc, List.singleton_append]

/-- C10 counterexample: two raw rows that differ as strings in the `div`
column but coerce to the same NA value produce a returned table with two
rows identical across all thirteen ingest columns — duplicates are removed
before, not after, type coercion. -/
theorem load_and_transform_rows_duplicate_cex :
    rawRowA ≠ rawRowB
    ∧ (load_and_transform_rows [rawRowA, rawRowB]).length = 2
    ∧ (load_and_transform_rows [rawRowA, rawRowB])[0]? =
        (load_and_transform_rows [rawRowA, rawRowB])[1]?
    ∧ ¬ (load_and_transform_rows [rawRowA, rawRowB]).Nodup := by
  decide

/-- C10 (amended): `load_and_transform_data` removes exact duplicates of
the raw string rows, keeping the first occurrence, before coercion and
hashing: the deduplicated raw list is duplicate-free, a subsequence of the
input with the same membership, and equals the keep-first left scan; the
returned table is the row-wise coercion of that list (so distinct raw rows
may still coincide on all thirteen columns after coercion). -/
theorem drop_duplicates_keep_first (rows : List RawRow) :
    (drop_duplicates rows).Nodup
    ∧ List.Sublist (drop_duplicates rows) rows
    ∧ (∀ r, r ∈ drop_duplicates rows ↔ r ∈ rows)
    ∧ rows.foldl (fun acc r => if r ∈ acc then acc else acc ++ [r]) [] =
        drop_duplicates rows
    ∧ load_and_transform_rows rows = (drop_duplicates rows).map transformRow := by
  refine ⟨nodup_dropDupAux rows [], sublist_dropDupAux rows [], ?_, ?_, rfl⟩
  · intro r
    rw [drop_duplicates, mem_dropDupAux]
    simp
  · rw [foldl_keepFirst_eq_dropDupAux rows [], drop_duplicates, List.nil_append]

/-- Witness for the amended C10 on a concrete list with an exact duplicate. -/
theorem drop_duplicates_keep_first_witness :
    (drop_duplicates [rawRowA, rawRowA, rawRowB]).Nodup :=
  (drop_duplicates_keep_first [rawRowA, rawRowA, rawRowB]).1

/-- C7: every stored row hash is the digest of the concatenation of that
row's thirteen column values in the fixed `COLUMNS_ORDER`, with nulls
rendered as the empty string; consequently two rows whose column values
render identically always receive identical hashes (the digest is a pure
function of that canonical string). -/
theorem registro_hash_canonical (sha256hex : String → String)
    (rows : List RawRow) :
    (∀ p ∈ load_and_transform_data sha256hex rows,
        p.2 = sha256hex (String.join (cellStrings p.1)))
    ∧ (∀ p q, p ∈ load_and_transform_data sha256hex rows →
        q ∈ load_and_transform_data sha256hex rows →
        cellStrings p.1 = cellStrings q.1 → p.2 = q.2) := by
  constructor
  · intro p hp
    obtain ⟨r, _, rfl⟩ := List.mem_map.mp hp
    rfl
  · intro p q hp hq hcells
    obtain ⟨r, _, rfl⟩ := List.mem_map.mp hp
    obtain ⟨r', _, rfl⟩ := List.mem_map.mp hq
    show registro_hash sha256hex r = registro_hash sha256hex r'
    unfold registro_hash hash_input
    rw [show cellStrings r = cellStrings r' from hcells]

/-- Witness for C7: the hash column of the singleton batch equals the
digest of the canonical concatenation (taking the digest primitive to be a
concrete function). -/
theorem registro_hash_canonical_witness :
    ((transformRow rawRowA, registro_hash (fun s => s) (transformRow rawRowA)) ∈
        load_and_transform_data (fun s => s) [rawRowA]) ∧
    (registro_hash (fun s => s) (transformRow rawRowA) =
      String.join (cellStrings (transformRow rawRowA))) := by
  have hmem : (transformRow rawRowA,
      registro_hash (fun s => s) (transformRow rawRowA)) ∈
      load_and_transform_data (fun s => s) [rawRowA] := by
    unfold load_and_transform_data
    have h : load_and_transform_rows [rawRowA] = [transformRow rawRowA] := rfl
    rw [h]
    exact List.mem_singleton.mpr rfl
  exact ⟨hmem, (registro_hash_canonical (fun s => s) [rawRowA]).1 _ hmem⟩
